import Mathlib

/-!
Verification of the Affina QA-automation repository against its
natural-language specification.

The development shallowly embeds the Python sources:

* `brd-testcase-automation/app/services/chatgpt_service.py`
  (`ChatGPTService`: batch test-case generation, estimation heuristic),
* `brd-test-executor/app/automation/sheet_reader.py` (`SheetReader`),
* `brd-test-executor/app/automation/code_generator.py`
  (`CodeGenerator._detect_module`),
* `brd-test-executor/app/automation/url_manager.py` (`URLManager.get`),
* `brd-test-executor/app/automation/result_reporter.py`
  (`ResultReporter._ensure_result_columns`),
* `brd-test-executor/app/automation/playwright_runner.py`
  (`PlaywrightRunner.run_single_test`).

Python strings are modelled as `List Char` (`PyStr`), so that every text
operation the sources perform (strip, startswith, substring search,
`str.replace`, `str.count`, slicing) has an executable, kernel-evaluable
counterpart.  Calls to external collaborators (the OpenAI client, the
spreadsheet store, the browser) are modelled as explicit oracle inputs:
each network call made by the code consumes the next oracle answer.
Python `float` arithmetic in the estimation heuristic is modelled with
exact rationals (`ℚ`); all quantities involved are nonnegative, where
Python's `int(...)` truncation coincides with `Int.floor`.
-/

/-- Python strings, modelled as lists of characters. -/

abbrev PyStr := List Char

/-- Coerce a Lean string literal into the `PyStr` model. -/

def pystr (s : String) : PyStr := s.data

/-- The `'{'` character (written via its code point). -/

def lbrace : Char := Char.ofNat 123

/-- The `'}'` character (written via its code point). -/

def rbrace : Char := Char.ofNat 125

/-- Python `str.isspace` on the ASCII whitespace characters that
`str.strip()` removes (space, tab, newline, carriage return, form feed,
vertical tab). -/

def pyIsSpace (c : Char) : Bool :=
  c = ' ' || c = '\t' || c = '\n' || c = '\r' || c = Char.ofNat 11 || c = Char.ofNat 12

/-- Python `s.strip()`: remove leading and trailing whitespace. -/

def pyStrip (s : PyStr) : PyStr :=
  ((s.dropWhile pyIsSpace).reverse.dropWhile pyIsSpace).reverse

/-- Python `s.lower()` (ASCII model of Python case folding; the repository
only ever compares against keyword lists whose case folding agrees). -/

def pyLower (s : PyStr) : PyStr := s.map Char.toLower

/-- Python `s.startswith(p)`. -/

def listStartsWith (s p : PyStr) : Bool := s.take p.length = p

/-- Python `p in s` (substring containment; `"" in s` is `True`). -/

def hasSub (p : PyStr) : PyStr → Bool
  | [] => listStartsWith [] p
  | c :: t => listStartsWith (c :: t) p || hasSub p t

/-- Python `s.count(p)` for a nonempty pattern `p`: number of
non-overlapping occurrences, scanning left to right.  (Every pattern the
repository counts is a nonempty keyword.) -/

def countSub (p : PyStr) : PyStr → Nat
  | [] => 0
  | c :: t =>
    if listStartsWith (c :: t) p then 1 + countSub p (t.drop (p.length - 1))
    else countSub p t
termination_by s => s.length
decreasing_by
  · simp only [List.length_drop, List.length_cons]; omega
  · simp only [List.length_cons]; omega

/-- Python `s.capitalize()`: first character upper-cased, the rest
lower-cased. -/

def pyCapitalize : PyStr → PyStr
  | [] => []
  | c :: t => c.toUpper :: t.map Char.toLower

/-! ### Module Classifier

`CodeGenerator._detect_module` (code_generator.py, lines 30-59): lower-case
the description and the steps, then test seven keyword groups in a fixed
order with `any(word in description or word in steps for word in [...])`;
the first matching group's tag is returned, and `'contract'` is the
default when nothing matches.
-/


/-- Python `any(word in description or word in steps for word in ws)` over the
already lower-cased `description`/`steps`. -/

def groupMatches (ws : List PyStr) (description steps : PyStr) : Bool :=
  ws.any fun w => hasSub w description || hasSub w steps

/-- Source `CodeGenerator._detect_module`, translated clause for clause from the
`if/elif` chain of the source. -/

def _detect_module (description steps : PyStr) : String :=
  let d := pyLower description
  let s := pyLower steps
  if groupMatches [pystr "hợp đồng", pystr "ctv", pystr "contract"] d s then "contract"
  else if groupMatches [pystr "lead", pystr "khách hàng tiềm năng"] d s then "lead"
  else if groupMatches [pystr "sản phẩm", pystr "product"] d s then "product"
  else if groupMatches [pystr "deeplink", pystr "link"] d s then "deeplink"
  else if groupMatches [pystr "báo cáo", pystr "report", pystr "dashboard"] d s then "report"
  else if groupMatches [pystr "cài đặt", pystr "setting", pystr "kpi"] d s then "settings"
  else if groupMatches [pystr "profile", pystr "hồ sơ", pystr "tài khoản"] d s then "profile"
  else "contract"

/-- The seven keyword groups in their fixed priority order, as the spec
describes them: `contract, lead, product, deeplink, report, settings,
profile`. -/

def moduleGroups : List (String × List PyStr) :=
  [ ("contract", [pystr "hợp đồng", pystr "ctv", pystr "contract"]),
    ("lead", [pystr "lead", pystr "khách hàng tiềm năng"]),
    ("product", [pystr "sản phẩm", pystr "product"]),
    ("deeplink", [pystr "deeplink", pystr "link"]),
    ("report", [pystr "báo cáo", pystr "report", pystr "dashboard"]),
    ("settings", [pystr "cài đặt", pystr "setting", pystr "kpi"]),
    ("profile", [pystr "profile", pystr "hồ sơ", pystr "tài khoản"]) ]

/-- Modelled from the spec's words for §4.3: scan the ordered group list,
return the tag of the first group with a matching keyword, defaulting to
`"contract"`. -/

def detectModuleSpec (description steps : PyStr) : String :=
  ((moduleGroups.find? fun g =>
      groupMatches g.2 (pyLower description) (pyLower steps)).map Prod.fst).getD "contract"

/-! ### Test-count estimation

`ChatGPTService._estimate_by_heuristic` (chatgpt_service.py, lines
126-170) and `ChatGPTService.estimate_required_test_cases` (lines
61-124).  The model call inside the latter is an oracle input: either an
exception message or the text of the model's reply.
-/


/-- The fixed UI-term list of `_estimate_by_heuristic`. -/

def uiKeywords : List PyStr :=
  [ pystr "button", pystr "field", pystr "form", pystr "input", pystr "dropdown",
    pystr "checkbox", pystr "radio", pystr "select", pystr "menu", pystr "tab",
    pystr "modal", pystr "dialog", pystr "nút", pystr "trường", pystr "biểu mẫu",
    pystr "nhập", pystr "chọn" ]

/-- Source `ui_element_count = sum(brd_content.lower().count(k) for k in ui_keywords)`. -/

def uiElementCount (brd : PyStr) : Nat :=
  (uiKeywords.map fun k => countSub k (pyLower brd)).sum

/-- Source `ChatGPTService._estimate_by_heuristic`.  Python float arithmetic is
modelled with exact rationals; `int(...)` of the nonnegative quantities
involved is `Int.floor`. -/

def _estimate_by_heuristic (brd : PyStr) (generated_count : Nat) : Int :=
  let brd_length := brd.length
  let ui_element_count := uiElementCount brd
  let base_estimate : ℚ := if brd_length < 5000 then 30 else if brd_length < 15000 then 60 else 100
  let ui_factor : ℚ := min ((ui_element_count : ℚ) / 20) 2
  let estimate : Int := Int.floor (base_estimate * (1 + ui_factor * (1 / 2 : ℚ)))
  let min_estimate : Int := Int.floor ((generated_count : ℚ) * (3 / 2 : ℚ))
  max estimate min_estimate

/-- Python `re.findall(r'\d+', s)` followed by taking the first hit: the first
maximal digit run of `s`, as a number (`none` when `s` has no digit). -/

def firstIntIn : PyStr → Option Nat
  | [] => none
  | c :: t =>
    if c.isDigit then
      some (((c :: t).takeWhile Char.isDigit).foldl (fun a d => a * 10 + (d.toNat - 48)) 0)
    else firstIntIn t

/-- Source `ChatGPTService.estimate_required_test_cases`.  `reply` is the oracle
for `self.client.chat.completions.create`: `.error e` models a raised
exception, `.ok txt` the returned message content. -/

def estimate_required_test_cases (reply : Except String PyStr) (brd : PyStr)
    (generated_count : Nat) : Int :=
  match reply with
  | .error _ => _estimate_by_heuristic brd generated_count
  | .ok txt =>
    match firstIntIn (pyStrip txt) with
    | some n => max (n : Int) (generated_count : Int)
    | none => _estimate_by_heuristic brd generated_count

/-! ### Test-Case Source Reader

`SheetReader.read_test_cases` (sheet_reader.py, lines 39-151).  The
worksheet is the oracle input: `all_values` is the list of rows that
`worksheet.get_all_values()` returns, each row a list of cell strings.
Connection/worksheet-lookup failures are remote-call failures outside the
parsing algorithm and are not modelled; the `< 4` row guard and the
row-parsing loop are translated exactly.
-/


/-- Cell read `row[i]` with the empty string as the out-of-range default (a plain
wrapper around `List.getD`, kept folded so that rewriting is stable). -/

def cell (row : List PyStr) (i : Nat) : PyStr := row.getD i []

/-- A parsed test-case record, as built in the loop body of
`read_test_cases` (fields in source order). -/

structure TestCaseRow where
  test_id : PyStr
  description : PyStr
  steps : PyStr
  expected_result : PyStr
  priority : PyStr
  row_number : Nat
  status : PyStr
  error_message : PyStr
  screenshot_url : PyStr
deriving DecidableEq, Repr

/-- One iteration of the parsing loop of `read_test_cases`: `rowIdx` is the
0-based index of `row` in `all_values`; the result is `none` when the
`continue` branches fire. -/

def parseSheetRow (rowIdx : Nat) (row : List PyStr) : Option TestCaseRow :=
  if row = [] || cell row 0 = [] || pyStrip (cell row 0) = [] then none
  else
    let test_id := pyStrip (cell row 0)
    let description := if 1 < row.length then pyStrip (cell row 1) else []
    let steps := if 2 < row.length then pyStrip (cell row 2) else []
    let expected_result := if 3 < row.length then pyStrip (cell row 3) else []
    let priority := if 4 < row.length then pyStrip (cell row 4) else pystr "Medium"
    if ¬ listStartsWith test_id (pystr "TC") then none
    else some
      { test_id := test_id
        description := description
        steps := steps
        expected_result := expected_result
        priority := priority
        row_number := rowIdx + 1
        status := []
        error_message := []
        screenshot_url := [] }

/-- Source `SheetReader.read_test_cases`, given the worksheet's
`get_all_values()` result: fail when fewer than 4 rows exist, otherwise
parse rows 4+ (0-based indices 3+) in order. -/

def read_test_cases (all_values : List (List PyStr)) :
    Except String (List TestCaseRow) :=
  if all_values.length < 4 then
    .error "Worksheet has insufficient data (need at least 4 rows)"
  else
    .ok ((all_values.enum.drop 3).filterMap fun p => parseSheetRow p.1 p.2)

instance (priority := low) {ε α : Type} [DecidableEq ε] [DecidableEq α] :
    DecidableEq (Except ε α) := fun a b =>
  match a, b with
  | .error e, .error f => decidable_of_iff (e = f) (by simp)
  | .ok x, .ok y => decidable_of_iff (x = y) (by simp)
  | .error _, .ok _ => isFalse fun h => Except.noConfusion h
  | .ok _, .error _ => isFalse fun h => Except.noConfusion h

/-! ### Result Reporter column migration

`ResultReporter._ensure_result_columns` (result_reporter.py, lines
23-50).  The worksheet's third row is the model state: a finite list of
cell strings (cells beyond the list are empty).  `worksheet.row_values(3)`
returns the stored row with trailing empty cells dropped;
`worksheet.update_cell(3, col, value)` writes one cell, extending the row
if necessary.
-/


/-- gspread `worksheet.row_values(3)`: the stored row with trailing empty
cells dropped. -/

def rowValues : List PyStr → List PyStr
  | [] => []
  | c :: t =>
    match rowValues t with
    | [] => if c = [] then [] else [c]
    | x :: xs => c :: x :: xs

/-- Write `worksheet.update_cell(3, col, value)` on the stored header row:
set the 0-based cell `i`, padding with empty cells if the row is short. -/

def setPad (r : List PyStr) (i : Nat) (v : PyStr) : List PyStr :=
  (r ++ List.replicate (i + 1 - r.length) []).set i v

/-- The blank test of `_ensure_result_columns` for 0-based column `i`:
`current_cols < i+1 or (current_cols >= i+1 and (not headers[i] or
headers[i].strip() == ''))`. -/

def headerBlankAt (headers : List PyStr) (i : Nat) : Bool :=
  decide (headers.length < i + 1) ||
    (decide (i + 1 ≤ headers.length) &&
      (decide (cell headers i = []) || decide (pyStrip (cell headers i) = [])))

/-- The `updates_needed` list of `_ensure_result_columns`: pairs of
1-based column and header label (the row is always 3). -/

def updatesNeeded (headers : List PyStr) : List (Nat × PyStr) :=
  (if headerBlankAt headers 6 then [(7, pystr "Error Message")] else []) ++
    (if headerBlankAt headers 7 then [(8, pystr "Screenshot")] else [])

/-- Source `ResultReporter._ensure_result_columns`: read the header row, compute
the needed updates, apply each `update_cell` in order.  The model returns
the stored header row after the writes (the Python function returns
`True`; a `False` return only arises from remote-call exceptions, which
are outside the pure model). -/

def _ensure_result_columns (row : List PyStr) : List PyStr :=
  (updatesNeeded (rowValues row)).foldl (fun r u => setPad r (u.1 - 1) u.2) row

/-! ### Automation Execution Engine

`PlaywrightRunner.run_single_test` (playwright_runner.py, lines 323-381).
Each awaited collaborator call is an oracle input of type
`Except String α`: `.error e` models a raised exception (caught by the
outer `except` of `run_single_test`), `.ok v` a normal return.
`execute_test_code` returns `(success, error_message, screenshot_path)`;
`start_browser` and `login` return `(success, error_message)`.
-/


/-- The collaborator outcomes one `run_single_test` call can observe. -/

structure RunEnv where
  browserAlreadyStarted : Bool
  startBrowser : Except String (Bool × Option String)
  login : Except String (Bool × Option String)
  executeTest : Except String (Bool × Option String × Option String)
  loginFailShot : Option String
  duration : ℚ

/-- The result dictionary built by `run_single_test`. -/

structure ExecutionResult where
  test_id : String
  status : String
  error_message : Option String
  screenshot_path : Option String
  execution_time : ℚ
deriving DecidableEq, Repr

/-- Python f-string interpolation of an `Optional[str]` (`None` prints
as `"None"`). -/

def pyShowOpt : Option String → String
  | none => "None"
  | some s => s

/-- The tail of `run_single_test` once the browser session is available:
`execute_test_code` and the PASS/FAIL branching on its result. -/

def runExecPhase (base : ExecutionResult) (env : RunEnv) : ExecutionResult :=
  match env.executeTest with
  | .error e =>
    { base with
      status := "FAIL"
      error_message := some ("Unexpected error: " ++ e) }
  | .ok (true, _, _) => { base with status := "PASS" }
  | .ok (false, err, shot) =>
    { base with
      status := "FAIL"
      error_message := err
      screenshot_path := shot }

/-- Source `PlaywrightRunner.run_single_test`: initialize the result record with
status `"PENDING"`, lazily start the browser and log in, execute the
test, and overwrite the status on every branch; the `finally` block
stamps the wall-clock duration. -/

def run_single_test (test_id : String) (env : RunEnv) : ExecutionResult :=
  let base : ExecutionResult :=
    { test_id := test_id, status := "PENDING", error_message := none,
      screenshot_path := none, execution_time := 0 }
  let afterTry : ExecutionResult :=
    if env.browserAlreadyStarted then runExecPhase base env
    else
      match env.startBrowser with
      | .error e =>
        { base with
          status := "FAIL"
          error_message := some ("Unexpected error: " ++ e) }
      | .ok (false, err) =>
        { base with
          status := "FAIL"
          error_message := some ("Browser start failed: " ++ pyShowOpt err) }
      | .ok (true, _) =>
        match env.login with
        | .error e =>
          { base with
            status := "FAIL"
            error_message := some ("Unexpected error: " ++ e) }
        | .ok (false, err) =>
          { base with
            status := "FAIL"
            error_message := some ("Login failed: " ++ pyShowOpt err)
            screenshot_path := env.loginFailShot }
        | .ok (true, _) => runExecPhase base env
  { afterTry with execution_time := env.duration }

/-! ### Batch Test-Case Generation Engine

`ChatGPTService` (chatgpt_service.py): `_call_chatgpt` (lines 322-356),
`_parse_test_cases` (lines 358-428) and `generate_test_cases` (lines
430-612).  The OpenAI client is an oracle `Nat → Except String PyStr`
giving the outcome of the n-th `chat.completions.create` call of one
`generate_test_cases` invocation; `json.loads` is likewise a parameter
`PyStr → Except String JValue` (the Python `json` library is external to
the repository).  Prompts are represented structurally by the template
used, the BRD text and the requested count — the only data the
`_create_prompt_*` f-strings vary over.
-/


/-- Values `json.loads` can produce. -/

inductive JValue where
  | jstr (s : PyStr)
  | jnum (n : Int)
  | jbool (b : Bool)
  | jnull
  | jarr (xs : List JValue)
  | jobj (fields : List (String × JValue))

/-- The `'` character (written via its code point). -/

def squote : Char := Char.ofNat 39

/-- Separator join (`", "`) used by Python container repr. -/

def joinCommaSp : List PyStr → PyStr
  | [] => []
  | [x] => x
  | x :: y :: t => x ++ pystr ", " ++ joinCommaSp (y :: t)

/-- Python `repr` of a parsed JSON value (an approximation: string
quoting/escaping subtleties are not modelled; no claim depends on the
repr of nested containers). -/

def jsonRepr : JValue → PyStr
  | .jstr s => squote :: (s ++ [squote])
  | .jnum n => pystr (toString n)
  | .jbool true => pystr "True"
  | .jbool false => pystr "False"
  | .jnull => pystr "None"
  | .jarr xs => '[' :: (joinCommaSp (xs.attach.map fun x => jsonRepr x.1) ++ [']'])
  | .jobj fs =>
    lbrace :: (joinCommaSp (fs.attach.map fun kv =>
      squote :: (pystr kv.1.1 ++ [squote] ++ pystr ": " ++ jsonRepr kv.1.2)) ++ [rbrace])
termination_by v => sizeOf v
decreasing_by
  · have := List.sizeOf_lt_of_mem x.2
    simp only [JValue.jarr.sizeOf_spec]
    omega
  · have h1 := List.sizeOf_lt_of_mem kv.2
    have h2 : sizeOf kv.1.2 < sizeOf kv.1 := by
      rcases kv.1 with ⟨a, b⟩
      simp
      try omega
    simp only [JValue.jobj.sizeOf_spec]
    omega

/-- Python `str()` of a parsed JSON value (`str` verbatim, ints in
decimal, `True`/`False`/`None`, containers via `repr`). -/

def pyStrOf : JValue → PyStr
  | .jstr s => s
  | .jnum n => pystr (toString n)
  | .jbool true => pystr "True"
  | .jbool false => pystr "False"
  | .jnull => pystr "None"
  | .jarr xs => jsonRepr (.jarr xs)
  | .jobj fs => jsonRepr (.jobj fs)

/-- A generated test-case record after field validation and cleanup. -/

structure TCRecord where
  description : PyStr
  steps : PyStr
  expected_result : PyStr
  priority : PyStr
deriving DecidableEq, Repr

/-- The four required fields of `_parse_test_cases`. -/

def requiredFields : List String :=
  ["description", "steps", "expected_result", "priority"]

/-- Python `k in d` for a parsed JSON object. -/

def jHasKey (fs : List (String × JValue)) (k : String) : Bool :=
  fs.any fun kv => kv.1 = k

/-- Python `d[k]` for a parsed JSON object (callers establish presence). -/

def jGet (fs : List (String × JValue)) (k : String) : JValue :=
  ((fs.find? fun kv => kv.1 = k).map Prod.snd).getD JValue.jnull

/-- Python `x == f` between a parsed JSON value and a string literal. -/

def jEqStr (x : JValue) (f : String) : Bool :=
  match x with
  | .jstr s => s = pystr f
  | _ => false

/-- The body of the per-element loop of `_parse_test_cases`: `.ok none`
models `continue` (a missing required field), `.ok (some r)` a validated
record, `.error e` a raised `TypeError` (Python `f in tc` on an
int/bool/None element, or item assignment on a str/list element),
caught by the enclosing `except Exception` as `"Parsing error: ..."`. -/

def convertElem : JValue → Except String (Option TCRecord)
  | .jobj fs =>
    if requiredFields.all (fun f => jHasKey fs f) then
      .ok (some
        { description := pyStrip (pyStrOf (jGet fs "description"))
          steps := pyStrip (pyStrOf (jGet fs "steps"))
          expected_result := pyStrip (pyStrOf (jGet fs "expected_result"))
          priority := pyCapitalize (pyStrip (pyStrOf (jGet fs "priority"))) })
    else .ok none
  | .jstr s =>
    if requiredFields.all (fun f => hasSub (pystr f) s) then
      .error "Parsing error: 'str' object does not support item assignment"
    else .ok none
  | .jarr xs =>
    if requiredFields.all (fun f => xs.any (fun x => jEqStr x f)) then
      .error "Parsing error: list indices must be integers or slices, not str"
    else .ok none
  | _ => .error "Parsing error: argument is not iterable"

/-- The element loop of `_parse_test_cases`, in order, aborting on the
first `TypeError`. -/

def convertAll : List JValue → Except String (List TCRecord)
  | [] => .ok []
  | tc :: rest =>
    match convertElem tc with
    | .error e => .error e
    | .ok none => convertAll rest
    | .ok (some r) =>
      match convertAll rest with
      | .error e => .error e
      | .ok rs => .ok (r :: rs)

/-- Python `s.split('\n')`. -/

def splitNL : PyStr → List PyStr
  | [] => [[]]
  | c :: t =>
    if c = '\n' then [] :: splitNL t
    else
      match splitNL t with
      | [] => [[c]]
      | h :: t2 => (c :: h) :: t2

/-- Python `'\n'.join(ls)`. -/

def joinNL (ls : List PyStr) : PyStr := List.intercalate ['\n'] ls

/-- Python `s.endswith(p)`. -/

def listEndsWith (s p : PyStr) : Bool := listStartsWith s.reverse p.reverse

/-- Start index of the last occurrence of `p` in `s` (if any). -/

def lastOcc (p s : PyStr) : Option Nat :=
  ((List.range (s.length + 1)).filter fun i => listStartsWith (s.drop i) p).getLast?

/-- Python `s.rsplit(p, 1)[0]` when `s` contains `p`: the part before the
last occurrence (the whole string when there is none). -/

def rsplitBefore (s p : PyStr) : PyStr :=
  match lastOcc p s with
  | none => s
  | some i => s.take i

/-- Index of the last `']'` (`s.rfind(']')`). -/

def rfindIdx (c : Char) (s : PyStr) : Option Nat :=
  (s.reverse.findIdx? fun x => x = c).map fun i => s.length - 1 - i

/-- Source `ChatGPTService._parse_test_cases`: strip markdown fences, cut to the
bracketed region, `json.loads`, require a JSON array, validate each
record, and fail when no valid record remains. -/

def _parse_test_cases (jsonLoads : PyStr → Except String JValue)
    (response_text : PyStr) : Except String (List TCRecord) :=
  let cleaned1 := pyStrip response_text
  let cleaned2 :=
    if listStartsWith cleaned1 (pystr "```") then joinNL ((splitNL cleaned1).drop 1)
    else cleaned1
  let cleaned3 :=
    if listEndsWith cleaned2 (pystr "```") then rsplitBefore cleaned2 (pystr "```")
    else cleaned2
  let cleaned := pyStrip cleaned3
  match cleaned.findIdx? (fun c => c = '['), rfindIdx ']' cleaned with
  | none, _ => .error "No JSON array found in response"
  | some _, none => .error "No JSON array found in response"
  | some first, some last =>
    let sliced := (cleaned.drop first).take (last + 1)
    match jsonLoads sliced with
    | .error e => .error ("Failed to parse JSON: " ++ e)
    | .ok (JValue.jarr items) =>
      match convertAll items with
      | .error e => .error e
      | .ok recs =>
        if recs = [] then .error "No valid test cases found after parsing"
        else .ok recs
    | .ok _ => .error "Response is not a JSON array"

/-- The three prompt templates of the 3-batch strategy. -/

inductive PromptKind where
  | happyPath
  | validationFeedback
  | edgeCases
deriving DecidableEq, Repr

/-- A prompt submitted to the model service, represented structurally by
its template and the two values the `_create_prompt_*` f-strings vary
over (the BRD text and the requested count). -/

structure Prompt where
  kind : PromptKind
  brd : PyStr
  count : Nat
deriving DecidableEq, Repr

/-- Source `ChatGPTService._create_prompt_ui_happy_path`. -/

def _create_prompt_ui_happy_path (brd : PyStr) (count : Nat) : Prompt :=
  { kind := .happyPath, brd := brd, count := count }

/-- Source `ChatGPTService._create_prompt_ui_validation`. -/

def _create_prompt_ui_validation (brd : PyStr) (count : Nat) : Prompt :=
  { kind := .validationFeedback, brd := brd, count := count }

/-- Source `ChatGPTService._create_prompt_ui_edge_cases`. -/

def _create_prompt_ui_edge_cases (brd : PyStr) (count : Nat) : Prompt :=
  { kind := .edgeCases, brd := brd, count := count }

/-- One entry of the batch-breakdown dictionary. -/

structure BatchStat where
  name : String
  count : Nat
  percentage : ℚ
deriving DecidableEq, Repr

/-- The `batch_breakdown` dictionary (keys `batch1_happy_path`,
`batch2_validation`, `batch3_edge_cases`). -/

structure BatchBreakdown where
  batch1_happy_path : BatchStat
  batch2_validation : BatchStat
  batch3_edge_cases : BatchStat
deriving DecidableEq, Repr

/-- The 4-tuple returned by `generate_test_cases`. -/

structure GenResult where
  success : Bool
  test_cases : List TCRecord
  error : Option String
  breakdown : Option BatchBreakdown
deriving DecidableEq, Repr

/-- Python `round(q, 1)` in exact arithmetic (Python rounds the nearest
double; this agrees on the repository's percentage values away from
exact `.x5` ties). -/

def pyRound1 (q : ℚ) : ℚ := (round (q * 10) : ℤ) / 10

/-- Source `round((b/total)*100, 1) if total > 0 else 0`. -/

def batchPct (b total : Nat) : ℚ :=
  if 0 < total then pyRound1 ((b : ℚ) / (total : ℚ) * 100) else 0

/-- Source `ChatGPTService._call_chatgpt` given the oracle outcome of the
underlying `chat.completions.create` call: `(success, response_text,
error_message)`. -/

def _call_chatgpt (reply : Except String PyStr) : Bool × PyStr × Option String :=
  match reply with
  | .ok txt => (true, txt, none)
  | .error e => (false, [], some ("ChatGPT API error: " ++ e))

/-- Source `ChatGPTService.generate_test_cases`.  `oracle n` is the outcome of
the n-th model call of this invocation; the second component of the
result is the trace of prompts actually submitted, in order.  Translated
branch for branch from the source: the 3-batch strategy when `batch_mode`
and `target_count ≥ 70` (sizes 30/30/remainder, stopping at the first
failed batch, which is fatal only for batch 1), single-batch otherwise. -/

def generate_test_cases (jsonLoads : PyStr → Except String JValue)
    (oracle : Nat → Except String PyStr) (brd : PyStr)
    (target_count : Nat) (batch_mode : Bool) : GenResult × List Prompt :=
  if batch_mode ∧ 70 ≤ target_count then
    let batch1_count := 30
    let batch2_count := 30
    let batch3_count := target_count - 60
    let prompt1 := _create_prompt_ui_happy_path brd batch1_count
    let r1 := _call_chatgpt (oracle 0)
    if r1.1 = false then
      ({ success := false, test_cases := [], error := r1.2.2, breakdown := none },
        [prompt1])
    else
      match _parse_test_cases jsonLoads r1.2.1 with
      | .error pe1 =>
        ({ success := false, test_cases := [], error := some pe1, breakdown := none },
          [prompt1])
      | .ok happy_cases =>
        let batch1_actual := happy_cases.length
        let prompt2 := _create_prompt_ui_validation brd batch2_count
        let r2 := _call_chatgpt (oracle 1)
        if r2.1 = false then
          ({ success := true, test_cases := happy_cases,
             error := some "Batch 2 failed but Batch 1 succeeded",
             breakdown := some
               { batch1_happy_path :=
                   { name := "UI Happy Path (MainFlow)", count := batch1_actual,
                     percentage := 100 }
                 batch2_validation :=
                   { name := "UI Validation", count := 0, percentage := 0 }
                 batch3_edge_cases :=
                   { name := "UI Boundary (Edge Cases)", count := 0,
                     percentage := 0 } } },
            [prompt1, prompt2])
        else
          match _parse_test_cases jsonLoads r2.2.1 with
          | .error _ =>
            ({ success := true, test_cases := happy_cases,
               error := some "Batch 2 parsing failed but Batch 1 succeeded",
               breakdown := some
                 { batch1_happy_path :=
                     { name := "UI Happy Path (MainFlow)", count := batch1_actual,
                       percentage := 100 }
                   batch2_validation :=
                     { name := "UI Validation", count := 0, percentage := 0 }
                   batch3_edge_cases :=
                     { name := "UI Boundary (Edge Cases)", count := 0,
                       percentage := 0 } } },
              [prompt1, prompt2])
          | .ok validation_cases =>
            let batch2_actual := validation_cases.length
            let all12 := happy_cases ++ validation_cases
            let prompt3 := _create_prompt_ui_edge_cases brd batch3_count
            let r3 := _call_chatgpt (oracle 2)
            if r3.1 = false then
              let total := batch1_actual + batch2_actual
              ({ success := true, test_cases := all12,
                 error := some "Batch 3 failed but Batch 1+2 succeeded",
                 breakdown := some
                   { batch1_happy_path :=
                       { name := "UI Happy Path (MainFlow)", count := batch1_actual,
                         percentage := batchPct batch1_actual total }
                     batch2_validation :=
                       { name := "UI Validation", count := batch2_actual,
                         percentage := batchPct batch2_actual total }
                     batch3_edge_cases :=
                       { name := "UI Boundary (Edge Cases)", count := 0,
                         percentage := 0 } } },
                [prompt1, prompt2, prompt3])
            else
              match _parse_test_cases jsonLoads r3.2.1 with
              | .error _ =>
                let total := batch1_actual + batch2_actual
                ({ success := true, test_cases := all12,
                   error := some "Batch 3 parsing failed but Batch 1+2 succeeded",
                   breakdown := some
                     { batch1_happy_path :=
                         { name := "UI Happy Path (MainFlow)",
                           count := batch1_actual,
                           percentage := batchPct batch1_actual total }
                       batch2_validation :=
                         { name := "UI Validation", count := batch2_actual,
                           percentage := batchPct batch2_actual total }
                       batch3_edge_cases :=
                         { name := "UI Boundary (Edge Cases)", count := 0,
                           percentage := 0 } } },
                  [prompt1, prompt2, prompt3])
              | .ok edge_cases =>
                let batch3_actual := edge_cases.length
                let total_generated := batch1_actual + batch2_actual + batch3_actual
                ({ success := true, test_cases := all12 ++ edge_cases,
                   error := none,
                   breakdown := some
                     { batch1_happy_path :=
                         { name := "UI Happy Path (MainFlow)",
                           count := batch1_actual,
                           percentage := batchPct batch1_actual total_generated }
                       batch2_validation :=
                         { name := "UI Validation", count := batch2_actual,
                           percentage := batchPct batch2_actual total_generated }
                       batch3_edge_cases :=
                         { name := "UI Boundary (Edge Cases)",
                           count := batch3_actual,
                           percentage := batchPct batch3_actual total_generated } } },
                  [prompt1, prompt2, prompt3])
  else
    let prompt := _create_prompt_ui_happy_path brd target_count
    let r := _call_chatgpt (oracle 0)
    if r.1 = false then
      ({ success := false, test_cases := [], error := r.2.2, breakdown := none },
        [prompt])
    else
      match _parse_test_cases jsonLoads r.2.1 with
      | .error pe =>
        ({ success := false, test_cases := [], error := some pe, breakdown := none },
          [prompt])
      | .ok cases =>
        ({ success := true, test_cases := cases, error := none,
           breakdown := some
             { batch1_happy_path :=
                 { name := "All Test Cases (Single Batch)", count := cases.length,
                   percentage := 100 }
               batch2_validation := { name := "N/A", count := 0, percentage := 0 }
               batch3_edge_cases := { name := "N/A", count := 0, percentage := 0 } } },
          [prompt])

/-- A well-formed generated record as `json.loads` would return it. -/

def sampleRecObj : JValue :=
  .jobj [("description", .jstr (pystr "d")), ("steps", .jstr (pystr "s")),
         ("expected_result", .jstr (pystr "e")), ("priority", .jstr (pystr "high"))]

/-- A `json.loads` table for the concrete runs: only the text `"[x]"`
parses (to a one-record array). -/

def jsonLoadsTable : PyStr → Except String JValue := fun s =>
  if s = pystr "[x]" then .ok (.jarr [sampleRecObj]) else .error "Expecting value"

/-- Model oracle whose first call succeeds with `"[x]"` and whose later
calls raise. -/

def oracleB2Fails : Nat → Except String PyStr := fun n =>
  if n = 0 then .ok (pystr "[x]") else .error "boom"

/-- Model oracle all of whose calls raise. -/

def oracleAllFail : Nat → Except String PyStr := fun _ => .error "boom"

/-! ### URL Manager

`URLManager.get` (url_manager.py, lines 51-91).  The loaded YAML tables
are assoc lists (`module → action → path template`); the kwargs loop
(`path = path.replace(...)` over `kwargs.items()`) is Python
`str.replace`, modelled by `pyReplace`.  To state what substitution does
to placeholders, a path is viewed as a rendered list of segments
(literal runs and `\x7bname\x7d` placeholders).
-/


/-- Python `s.replace(p, rep)` for a nonempty pattern `p`: replace
non-overlapping occurrences, scanning left to right.  (Every pattern
used by `URLManager.get` has the form `"\x7bkey\x7d"`, never empty.) -/

def pyReplace (p rep : PyStr) : PyStr → PyStr
  | [] => []
  | c :: t =>
    if listStartsWith (c :: t) p then rep ++ pyReplace p rep (t.drop (p.length - 1))
    else c :: pyReplace p rep t
termination_by s => s.length
decreasing_by
  · simp only [List.length_drop, List.length_cons]; omega
  · simp only [List.length_cons]; omega

/-- The kwargs loop of `URLManager.get`:
`for key, value in kwargs.items(): path = path.replace(...)`. -/

def substituteAll (kwargs : List (String × PyStr)) (path : PyStr) : PyStr :=
  kwargs.foldl (fun acc kv => pyReplace (lbrace :: (pystr kv.1 ++ [rbrace])) kv.2 acc)
    path

/-- Source `URLManager.get`: module lookup, action lookup (Python truthiness
makes a missing key, an empty table and an empty path all "not found"),
placeholder substitution, then `base_url + path`. -/

def urlGet (urls : List (String × List (String × PyStr))) (base : PyStr)
    (module action : String) (kwargs : List (String × PyStr)) : Option PyStr :=
  match (urls.find? fun x => x.1 = module).map Prod.snd with
  | none => none
  | some module_urls =>
    if module_urls = [] then none
    else
      match (module_urls.find? fun x => x.1 = action).map Prod.snd with
      | none => none
      | some path =>
        if path = [] then none
        else some (base ++ substituteAll kwargs path)

/-- A URL path template, segmented into literal runs and
`\x7bname\x7d` placeholders. -/

inductive UrlSeg where
  | lit (l : PyStr)
  | ph (n : String)
deriving DecidableEq, Repr

/-- Rendering of a segmented template back into its path text. -/

def renderSegs : List UrlSeg → PyStr
  | [] => []
  | .lit l :: rest => l ++ renderSegs rest
  | .ph n :: rest => lbrace :: ((pystr n ++ [rbrace]) ++ renderSegs rest)

/-- Substituting one key: the placeholders named `k` become literals. -/

def substOneSeg (k : String) (v : PyStr) : UrlSeg → UrlSeg
  | .lit l => .lit l
  | .ph n => if n = k then .lit v else .ph n

/-- Simultaneous substitution of all supplied keys: a placeholder with a
matching key becomes its value, every other placeholder stays verbatim. -/

def substSeg (kwargs : List (String × PyStr)) : UrlSeg → UrlSeg
  | .lit l => .lit l
  | .ph n =>
    match (kwargs.find? fun kv => kv.1 = n).map Prod.snd with
    | some v => .lit v
    | none => .ph n

/-- Well-formedness of a segment: literals contain no opening brace,
placeholder names contain no brace at all. -/

def segOk : UrlSeg → Prop
  | .lit l => lbrace ∉ l
  | .ph n => lbrace ∉ pystr n ∧ rbrace ∉ pystr n

/-- Well-formedness of the supplied pairs: keys contain no brace,
values contain no opening brace. -/

def kwOk (kv : String × PyStr) : Prop :=
  lbrace ∉ pystr kv.1 ∧ rbrace ∉ pystr kv.1 ∧ lbrace ∉ kv.2

instance decSegOk : ∀ s : UrlSeg, Decidable (segOk s)
  | .lit l => inferInstanceAs (Decidable (lbrace ∉ l))
  | .ph n => inferInstanceAs (Decidable (lbrace ∉ pystr n ∧ rbrace ∉ pystr n))

instance decKwOk (kv : String × PyStr) : Decidable (kwOk kv) :=
  inferInstanceAs (Decidable (lbrace ∉ pystr kv.1 ∧ rbrace ∉ pystr kv.1 ∧
    lbrace ∉ kv.2))

/-- Claim C5 helper: the classifier, by cases on the seven ordered guards. -/

theorem detect_module_eq_spec (description steps : PyStr) :
    _detect_module description steps = detectModuleSpec description steps := by
  unfold _detect_module detectModuleSpec moduleGroups
  by_cases h1 : groupMatches [pystr "hợp đồng", pystr "ctv", pystr "contract"]
      (pyLower description) (pyLower steps) <;>
    by_cases h2 : groupMatches [pystr "lead", pystr "khách hàng tiềm năng"]
      (pyLower description) (pyLower steps) <;>
    by_cases h3 : groupMatches [pystr "sản phẩm", pystr "product"]
      (pyLower description) (pyLower steps) <;>
    by_cases h4 : groupMatches [pystr "deeplink", pystr "link"]
      (pyLower description) (pyLower steps) <;>
    by_cases h5 : groupMatches [pystr "báo cáo", pystr "report", pystr "dashboard"]
      (pyLower description) (pyLower steps) <;>
    by_cases h6 : groupMatches [pystr "cài đặt", pystr "setting", pystr "kpi"]
      (pyLower description) (pyLower steps) <;>
    by_cases h7 : groupMatches [pystr "profile", pystr "hồ sơ", pystr "tài khoản"]
      (pyLower description) (pyLower steps) <;>
    simp [List.find?, h1, h2, h3, h4, h5, h6, h7]

/-- C5: Module classification is a pure, deterministic function of the
(description, steps) text: it equals the first-match-wins scan of the
seven fixed keyword groups in the order contract, lead, product,
deeplink, report, settings, profile, with default tag `contract` for
every input matching no group. -/

theorem C5_module_classifier (description steps : PyStr) :
    _detect_module description steps = detectModuleSpec description steps ∧
    ((∀ g ∈ moduleGroups,
        groupMatches g.2 (pyLower description) (pyLower steps) = false) →
      _detect_module description steps = "contract") := by
  refine ⟨detect_module_eq_spec description steps, fun h => ?_⟩
  rw [detect_module_eq_spec description steps]
  unfold detectModuleSpec
  rw [List.find?_eq_none.mpr]
  · rfl
  · intro g hg
    simp [h g hg]

/-- C6: the heuristic fallback estimator is exactly the closed form
`max ⌊base * (1 + min(ui/20, 2) * 0.5)⌋ ⌊1.5 * generated⌋` with the
length-tier base, and consequently neither the heuristic path nor the
model path of `estimate_required_test_cases` ever returns a value below
`generated_count`. -/

theorem C6_estimator_floor (brd : PyStr) (generated_count : Nat) :
    _estimate_by_heuristic brd generated_count =
      max (Int.floor
            ((if brd.length < 5000 then (30 : ℚ)
              else if brd.length < 15000 then 60 else 100) *
              (1 + min ((uiElementCount brd : ℚ) / 20) 2 * (1 / 2 : ℚ))))
          (Int.floor ((generated_count : ℚ) * (3 / 2 : ℚ))) ∧
    (generated_count : Int) ≤ _estimate_by_heuristic brd generated_count ∧
    ∀ reply : Except String PyStr,
      (generated_count : Int) ≤ estimate_required_test_cases reply brd generated_count := by
  have hmin : (generated_count : Int) ≤
      Int.floor ((generated_count : ℚ) * (3 / 2 : ℚ)) := by
    rw [Int.le_floor]
    push_cast
    nlinarith [Nat.cast_nonneg (α := ℚ) generated_count]
  have hheur : (generated_count : Int) ≤ _estimate_by_heuristic brd generated_count := by
    unfold _estimate_by_heuristic
    exact le_trans hmin (le_max_right _ _)
  refine ⟨rfl, hheur, fun reply => ?_⟩
  unfold estimate_required_test_cases
  cases reply with
  | error e => exact hheur
  | ok txt =>
    cases h : firstIntIn (pyStrip txt) with
    | none => simp only [h]; exact hheur
    | some n => simp [h]

lemma cell_nil (i : Nat) : cell [] i = [] := by cases i <;> rfl

lemma cell_cons_zero (c : PyStr) (t : List PyStr) : cell (c :: t) 0 = c := rfl

/-- The skip guard of the reader's loop (`not row or not row[0] or not
row[0].strip()`) collapses to "the stripped first cell is empty". -/

lemma parseSheetRow_guard (row : List PyStr) :
    (decide (row = []) || decide (cell row 0 = []) ||
      decide (pyStrip (cell row 0) = [])) =
      decide (pyStrip (cell row 0) = []) := by
  by_cases h : row = []
  · subst h; rfl
  · by_cases h2 : cell row 0 = []
    · simp [h, h2]; rfl
    · simp [h, h2]

/-- Normal form of one loop iteration of `read_test_cases`. -/

lemma parseSheetRow_eq (rowIdx : Nat) (row : List PyStr) :
    parseSheetRow rowIdx row =
      if pyStrip (cell row 0) = [] then none
      else if listStartsWith (pyStrip (cell row 0)) (pystr "TC") = false then none
      else some
        { test_id := pyStrip (cell row 0)
          description := if 1 < row.length then pyStrip (cell row 1) else []
          steps := if 2 < row.length then pyStrip (cell row 2) else []
          expected_result := if 3 < row.length then pyStrip (cell row 3) else []
          priority := if 4 < row.length then pyStrip (cell row 4) else pystr "Medium"
          row_number := rowIdx + 1
          status := []
          error_message := []
          screenshot_url := [] } := by
  unfold parseSheetRow
  rw [parseSheetRow_guard]
  by_cases h0 : pyStrip (cell row 0) = []
  · simp [h0]
  · by_cases hs : listStartsWith (pyStrip (cell row 0)) (pystr "TC")
    · simp [h0, hs]
    · simp [h0, hs]

/-- C4 counterexample: the claim says a data row is excluded whenever its
first cell does not start with `"TC"`; but the code strips the cell
before the prefix check, so the row with first cell `" TC001"` (which is
not whitespace-only and does not start with `"TC"`) is included. -/

theorem C4_reader_counterexample :
    read_test_cases
        [ [pystr "BRD.docx"], [],
          [pystr "Test ID", pystr "Description", pystr "Steps",
           pystr "Expected Result", pystr "Priority"],
          [pystr " TC001", pystr "desc", pystr "steps", pystr "expected",
           pystr "High"] ] =
      .ok [{ test_id := pystr "TC001", description := pystr "desc",
             steps := pystr "steps", expected_result := pystr "expected",
             priority := pystr "High", row_number := 4, status := [],
             error_message := [], screenshot_url := [] }] ∧
    listStartsWith (pystr " TC001") (pystr "TC") = false ∧
    pyStrip (pystr " TC001") ≠ [] := by
  refine ⟨by decide, by decide, by decide⟩

/-- C4 (amended): the concrete scenario yields exactly one record with id
`"TC001"`, priority `"High"`, source row 4; and in general a data row is
excluded exactly when its *stripped* first cell is empty or does not
start with `"TC"`, and included otherwise with stripped cells, missing
trailing cells defaulting to the empty string, and priority defaulting to
`"Medium"` when the row has fewer than 5 cells. -/

theorem C4_reader_rows (rowIdx : Nat) (row : List PyStr) :
    (read_test_cases
        [ [pystr "BRD.docx"], [],
          [pystr "Test ID", pystr "Description", pystr "Steps",
           pystr "Expected Result", pystr "Priority"],
          [pystr "TC001", pystr "desc", pystr "steps", pystr "expected",
           pystr "High"] ] =
      .ok [{ test_id := pystr "TC001", description := pystr "desc",
             steps := pystr "steps", expected_result := pystr "expected",
             priority := pystr "High", row_number := 4, status := [],
             error_message := [], screenshot_url := [] }]) ∧
    (parseSheetRow rowIdx row = none ↔
      (pyStrip (cell row 0) = [] ∨
        listStartsWith (pyStrip (cell row 0)) (pystr "TC") = false)) ∧
    (pyStrip (cell row 0) ≠ [] →
      listStartsWith (pyStrip (cell row 0)) (pystr "TC") = true →
      parseSheetRow rowIdx row = some
        { test_id := pyStrip (cell row 0)
          description := if 1 < row.length then pyStrip (cell row 1) else []
          steps := if 2 < row.length then pyStrip (cell row 2) else []
          expected_result := if 3 < row.length then pyStrip (cell row 3) else []
          priority := if 4 < row.length then pyStrip (cell row 4) else pystr "Medium"
          row_number := rowIdx + 1
          status := []
          error_message := []
          screenshot_url := [] }) := by
  refine ⟨by decide, ?_, ?_⟩
  · rw [parseSheetRow_eq]
    by_cases h0 : pyStrip (cell row 0) = []
    · simp [h0]
    · by_cases hs : listStartsWith (pyStrip (cell row 0)) (pystr "TC")
      · simp [h0, hs]
      · simp [h0, hs]
  · intro h0 hs
    rw [parseSheetRow_eq]
    simp [h0, hs]

/-- C4 (amended) witness: the amended row characterization evaluated at
the concrete data row `["TC001", "desc", "steps", "expected", "High"]`
at 0-based index 3 (sheet row 4). -/

theorem C4_reader_rows_witness :
    parseSheetRow 3
        [pystr "TC001", pystr "desc", pystr "steps", pystr "expected", pystr "High"] =
      some
        { test_id := pystr "TC001", description := pystr "desc",
          steps := pystr "steps", expected_result := pystr "expected",
          priority := pystr "High", row_number := 4, status := [],
          error_message := [], screenshot_url := [] } := by
  have h := (C4_reader_rows 3
    [pystr "TC001", pystr "desc", pystr "steps", pystr "expected", pystr "High"]).2.2
    (by decide) (by decide)
  simpa using h

/-- C10: the reader's `"Medium"` default applies only to absent cells:
for every included data row the produced record's priority is the
stripped fifth cell whenever the row has at least 5 cells (hence the
empty string when that cell is blank), and `"Medium"` exactly when the
row has fewer than 5 cells. -/

theorem C10_priority_default (rowIdx : Nat) (row : List PyStr) (tc : TestCaseRow)
    (h : parseSheetRow rowIdx row = some tc) :
    (5 ≤ row.length → tc.priority = pyStrip (cell row 4)) ∧
    (row.length < 5 → tc.priority = pystr "Medium") ∧
    (5 ≤ row.length → pyStrip (cell row 4) = [] → tc.priority = []) := by
  rw [parseSheetRow_eq] at h
  by_cases h0 : pyStrip (cell row 0) = []
  · simp [h0] at h
  · by_cases hs : listStartsWith (pyStrip (cell row 0)) (pystr "TC")
    · simp [h0, hs] at h
      subst h
      refine ⟨fun h5 => ?_, fun h5 => ?_, fun h5 hblank => ?_⟩
      · show (if 4 < row.length then pyStrip (cell row 4) else pystr "Medium") =
          pyStrip (cell row 4)
        rw [if_pos (by omega)]
      · show (if 4 < row.length then pyStrip (cell row 4) else pystr "Medium") =
          pystr "Medium"
        rw [if_neg (by omega)]
      · show (if 4 < row.length then pyStrip (cell row 4) else pystr "Medium") = []
        rw [if_pos (by omega), hblank]
    · simp [h0, hs] at h

/-- C10 witness: the concrete data row
`["TC001", "desc", "steps", "expected", " "]` (five cells, blank
priority cell) produces priority `""`, not `"Medium"`. -/

theorem C10_priority_default_witness :
    parseSheetRow 3 [pystr "TC001", pystr "desc", pystr "steps", pystr "expected", pystr " "] =
      some
        { test_id := pystr "TC001", description := pystr "desc",
          steps := pystr "steps", expected_result := pystr "expected",
          priority := [], row_number := 4, status := [],
          error_message := [], screenshot_url := [] } ∧
    ([] : PyStr) ≠ pystr "Medium" ∧
    (5 ≤ ([pystr "TC001", pystr "desc", pystr "steps", pystr "expected", pystr " "] :
        List PyStr).length ∧
      pyStrip (cell [pystr "TC001", pystr "desc", pystr "steps", pystr "expected", pystr " "] 4) =
        []) := by
  have h := C10_priority_default 3
    [pystr "TC001", pystr "desc", pystr "steps", pystr "expected", pystr " "]
    { test_id := pystr "TC001", description := pystr "desc",
      steps := pystr "steps", expected_result := pystr "expected",
      priority := [], row_number := 4, status := [],
      error_message := [], screenshot_url := [] }
    (by decide)
  exact ⟨by decide, by decide, by decide, h.2.2 (by decide) (by decide) ▸ by decide⟩

lemma cell_eq_getElem? (r : List PyStr) (i : Nat) : cell r i = (r[i]?).getD [] := by
  simp [cell, List.getD_eq_getElem?_getD]

/-- Dropping trailing empty cells does not change any cell read with an
empty-string default. -/

lemma cell_rowValues (r : List PyStr) (i : Nat) : cell (rowValues r) i = cell r i := by
  induction r generalizing i with
  | nil => rfl
  | cons c t ih =>
    show cell (rowValues (c :: t)) i = cell (c :: t) i
    rw [rowValues]
    cases htv : rowValues t with
    | nil =>
      have hcells : ∀ j, cell t j = [] := by
        intro j
        have := ih j
        rw [htv] at this
        simpa [cell_nil] using this.symm
      by_cases hc : c = []
      · subst hc
        rw [if_pos rfl]
        cases i with
        | zero => simp [cell_nil, cell_cons_zero]
        | succ j =>
          have h2 : cell ([] :: t) (j + 1) = cell t j := rfl
          rw [cell_nil, h2, hcells j]
      · rw [if_neg hc]
        cases i with
        | zero => rfl
        | succ j =>
          show cell [c] (j + 1) = cell (c :: t) (j + 1)
          have h1 : cell [c] (j + 1) = ([] : PyStr) := by cases j <;> rfl
          have h2 : cell (c :: t) (j + 1) = cell t j := rfl
          rw [h1, h2, hcells j]
    | cons x xs =>
      cases i with
      | zero => rfl
      | succ j =>
        show cell (x :: xs) j = cell t j
        rw [← htv]; exact ih j

/-- For column reads with an empty default, the guard of
`_ensure_result_columns` is exactly "the stripped cell is empty". -/

lemma headerBlankAt_eq (headers : List PyStr) (i : Nat) :
    headerBlankAt headers i = decide (pyStrip (cell headers i) = []) := by
  unfold headerBlankAt
  by_cases hlen : headers.length < i + 1
  · have hc : cell headers i = [] := by
      rw [cell_eq_getElem?]
      rw [List.getElem?_eq_none (by omega)]
      rfl
    have hstrip : pyStrip (cell headers i) = [] := by rw [hc]; rfl
    simp [hlen, hstrip]
  · have hle : i + 1 ≤ headers.length := by omega
    by_cases hc : cell headers i = []
    · have hstrip : pyStrip (cell headers i) = [] := by rw [hc]; rfl
      simp [hlen, hle, hc, hstrip]
      rfl
    · simp [hlen, hle, hc]

lemma cell_setPad_self (r : List PyStr) (i : Nat) (v : PyStr) :
    cell (setPad r i v) i = v := by
  rw [cell_eq_getElem?, setPad]
  rw [List.getElem?_set_self (by simp; omega)]
  rfl

lemma cell_setPad_ne (r : List PyStr) (i j : Nat) (v : PyStr) (h : i ≠ j) :
    cell (setPad r i v) j = cell r j := by
  rw [cell_eq_getElem?, cell_eq_getElem?, setPad, List.getElem?_set_ne h]
  by_cases hj : j < r.length
  · rw [List.getElem?_append_left hj]
  · have hr : r[j]? = none := List.getElem?_eq_none (by omega)
    by_cases hj2 : j < r.length + (i + 1 - r.length)
    · have hrep : (List.replicate (i + 1 - r.length) ([] : PyStr))[j - r.length]? =
          some [] := by
        simp only [List.getElem?_replicate]
        rw [if_pos (by omega)]
      rw [hr, List.getElem?_append_right (by omega), hrep]
      rfl
    · have hpad : (r ++ List.replicate (i + 1 - r.length) ([] : PyStr))[j]? = none :=
        List.getElem?_eq_none
          (by simp only [List.length_append, List.length_replicate]; omega)
      rw [hr, hpad]

lemma updatesNeeded_rowValues (r : List PyStr) :
    updatesNeeded (rowValues r) =
      (if pyStrip (cell r 6) = [] then [(7, pystr "Error Message")] else []) ++
        (if pyStrip (cell r 7) = [] then [(8, pystr "Screenshot")] else []) := by
  unfold updatesNeeded
  rw [headerBlankAt_eq, headerBlankAt_eq, cell_rowValues, cell_rowValues]
  by_cases h6 : pyStrip (cell r 6) = [] <;> by_cases h7 : pyStrip (cell r 7) = [] <;>
    simp [h6, h7]

lemma ensure_of_no_updates (r : List PyStr)
    (h : updatesNeeded (rowValues r) = []) : _ensure_result_columns r = r := by
  unfold _ensure_result_columns
  rw [h]
  rfl

/-- After one run of the column-ensure step, the stripped cells at 0-based
columns 6 and 7 are both nonempty. -/

lemma ensure_columns_filled (r : List PyStr) :
    pyStrip (cell (_ensure_result_columns r) 6) ≠ [] ∧
    pyStrip (cell (_ensure_result_columns r) 7) ≠ [] := by
  have hEM : pyStrip (pystr "Error Message") ≠ [] := by decide
  have hSS : pyStrip (pystr "Screenshot") ≠ [] := by decide
  unfold _ensure_result_columns
  rw [updatesNeeded_rowValues]
  by_cases h6 : pyStrip (cell r 6) = [] <;> by_cases h7 : pyStrip (cell r 7) = []
  · rw [if_pos h6, if_pos h7]
    have hred : List.foldl (fun r u => setPad r (u.1 - 1) u.2) r
        ([(7, pystr "Error Message")] ++ [(8, pystr "Screenshot")]) =
        setPad (setPad r 6 (pystr "Error Message")) 7 (pystr "Screenshot") := rfl
    rw [hred]
    constructor
    · rw [cell_setPad_ne _ 7 6 _ (by omega), cell_setPad_self]
      exact hEM
    · rw [cell_setPad_self]
      exact hSS
  · rw [if_pos h6, if_neg h7]
    have hred : List.foldl (fun r u => setPad r (u.1 - 1) u.2) r
        ([(7, pystr "Error Message")] ++ []) =
        setPad r 6 (pystr "Error Message") := rfl
    rw [hred]
    constructor
    · rw [cell_setPad_self]
      exact hEM
    · rw [cell_setPad_ne _ 6 7 _ (by omega)]
      exact h7
  · rw [if_neg h6, if_pos h7]
    have hred : List.foldl (fun r u => setPad r (u.1 - 1) u.2) r
        ([] ++ [(8, pystr "Screenshot")]) =
        setPad r 7 (pystr "Screenshot") := rfl
    rw [hred]
    constructor
    · rw [cell_setPad_ne _ 7 6 _ (by omega)]
      exact h6
    · rw [cell_setPad_self]
      exact hSS
  · rw [if_neg h6, if_neg h7]
    exact ⟨h6, h7⟩

/-- C9: the Reporter's column-ensure step is idempotent: on a worksheet
whose row-3 headers already hold non-blank values at columns 7 and 8 it
performs no header write and leaves the row unchanged, and running the
step twice always equals running it once (the second run computes no
updates). -/

theorem C9_ensure_columns_idempotent (row : List PyStr) :
    (pyStrip (cell row 6) ≠ [] → pyStrip (cell row 7) ≠ [] →
      updatesNeeded (rowValues row) = [] ∧ _ensure_result_columns row = row) ∧
    updatesNeeded (rowValues (_ensure_result_columns row)) = [] ∧
    _ensure_result_columns (_ensure_result_columns row) =
      _ensure_result_columns row := by
  have hsecond : updatesNeeded (rowValues (_ensure_result_columns row)) = [] := by
    rw [updatesNeeded_rowValues]
    rw [if_neg (ensure_columns_filled row).1, if_neg (ensure_columns_filled row).2]
    rfl
  refine ⟨fun h6 h7 => ?_, hsecond, ensure_of_no_updates _ hsecond⟩
  have hupd : updatesNeeded (rowValues row) = [] := by
    rw [updatesNeeded_rowValues, if_neg h6, if_neg h7]
    rfl
  exact ⟨hupd, ensure_of_no_updates _ hupd⟩

/-- C9 witness: on the fully-populated header row (columns 7 and 8
already `"Error Message"`/`"Screenshot"`) the ensure step computes no
update and leaves the row unchanged. -/

theorem C9_ensure_columns_idempotent_witness :
    updatesNeeded (rowValues
        [pystr "Test ID", pystr "Description", pystr "Steps",
         pystr "Expected Result", pystr "Priority", pystr "Result",
         pystr "Error Message", pystr "Screenshot"]) = [] ∧
    _ensure_result_columns
        [pystr "Test ID", pystr "Description", pystr "Steps",
         pystr "Expected Result", pystr "Priority", pystr "Result",
         pystr "Error Message", pystr "Screenshot"] =
      [pystr "Test ID", pystr "Description", pystr "Steps",
       pystr "Expected Result", pystr "Priority", pystr "Result",
       pystr "Error Message", pystr "Screenshot"] :=
  (C9_ensure_columns_idempotent
      [pystr "Test ID", pystr "Description", pystr "Steps",
       pystr "Expected Result", pystr "Priority", pystr "Result",
       pystr "Error Message", pystr "Screenshot"]).1
    (by decide) (by decide)

/-- C7: every result record returned by `run_single_test` has status
`"PASS"` or `"FAIL"`: on every branch (browser-start failure, login
failure, execution success/failure, timeout or unexpected exception) the
initial `"PENDING"` status is overwritten, so a caller never observes
`"PENDING"`. -/

theorem C7_run_single_test_status (test_id : String) (env : RunEnv) :
    ((run_single_test test_id env).status = "PASS" ∨
      (run_single_test test_id env).status = "FAIL") ∧
    (run_single_test test_id env).status ≠ "PENDING" := by
  have h : (run_single_test test_id env).status = "PASS" ∨
      (run_single_test test_id env).status = "FAIL" := by
    unfold run_single_test runExecPhase
    rcases env with ⟨b, sb, lg, ex, shot, d⟩
    cases b
    · cases sb with
      | error e => simp
      | ok v =>
        rcases v with ⟨bs, err⟩
        cases bs
        · simp
        · cases lg with
          | error e => simp
          | ok w =>
            rcases w with ⟨bl, err2⟩
            cases bl
            · simp
            · cases ex with
              | error e => simp
              | ok u =>
                rcases u with ⟨bu, eu, su⟩
                cases bu <;> simp
    · cases ex with
      | error e => simp
      | ok u =>
        rcases u with ⟨bu, eu, su⟩
        cases bu <;> simp
  refine ⟨h, ?_⟩
  rcases h with h | h <;> rw [h] <;> decide

/-- A successful parse always yields at least one record (`if not
valid_test_cases: return False`). -/

lemma parse_ok_nonempty (jsonLoads : PyStr → Except String JValue)
    (s : PyStr) (recs : List TCRecord)
    (h : _parse_test_cases jsonLoads s = .ok recs) : recs ≠ [] := by
  unfold _parse_test_cases at h
  simp only [] at h
  repeat' (split at h)
  all_goals simp_all

/-- C1: in 3-batch generation, when batch 1 succeeds and batch 2 fails
(model-call error or unparseable result), `generate_test_cases` returns
overall success with exactly batch 1's (non-empty) records, a breakdown
with batch 1 at 100.0 and batches 2/3 at count 0 / percentage 0.0, and
issues no further batch (exactly the two prompts are submitted). -/

theorem C1_batch2_failure_degrades (jsonLoads : PyStr → Except String JValue)
    (oracle : Nat → Except String PyStr) (brd : PyStr) (target_count : Nat)
    (htc : 70 ≤ target_count) (text1 : PyStr) (recs1 : List TCRecord)
    (h0 : oracle 0 = .ok text1)
    (hp1 : _parse_test_cases jsonLoads text1 = .ok recs1)
    (hfail : (∃ e, oracle 1 = .error e) ∨
      (∃ text2 e2, oracle 1 = .ok text2 ∧
        _parse_test_cases jsonLoads text2 = .error e2)) :
    (generate_test_cases jsonLoads oracle brd target_count true).1.success = true ∧
    (generate_test_cases jsonLoads oracle brd target_count true).1.test_cases = recs1 ∧
    recs1 ≠ [] ∧
    (generate_test_cases jsonLoads oracle brd target_count true).1.breakdown = some
      { batch1_happy_path :=
          { name := "UI Happy Path (MainFlow)", count := recs1.length,
            percentage := 100 }
        batch2_validation := { name := "UI Validation", count := 0, percentage := 0 }
        batch3_edge_cases :=
          { name := "UI Boundary (Edge Cases)", count := 0, percentage := 0 } } ∧
    (generate_test_cases jsonLoads oracle brd target_count true).2 =
      [_create_prompt_ui_happy_path brd 30, _create_prompt_ui_validation brd 30] := by
  have hne := parse_ok_nonempty jsonLoads text1 recs1 hp1
  rcases hfail with ⟨e, he⟩ | ⟨text2, e2, hok2, hpe2⟩
  · simp [generate_test_cases, _call_chatgpt, h0, hp1, he, htc, hne]
  · simp [generate_test_cases, _call_chatgpt, h0, hp1, hok2, hpe2, htc, hne]

/-- C1 witness: the C1 scenario at a concrete oracle (batch 1 parses one
record, the batch-2 call raises). -/

theorem C1_batch2_failure_degrades_witness :
    (generate_test_cases jsonLoadsTable oracleB2Fails (pystr "B") 90 true).1.success = true ∧
    (generate_test_cases jsonLoadsTable oracleB2Fails (pystr "B") 90 true).1.test_cases =
      [{ description := pystr "d", steps := pystr "s", expected_result := pystr "e",
         priority := pystr "High" }] ∧
    ([{ description := pystr "d", steps := pystr "s", expected_result := pystr "e",
        priority := pystr "High" }] : List TCRecord) ≠ [] ∧
    (generate_test_cases jsonLoadsTable oracleB2Fails (pystr "B") 90 true).1.breakdown = some
      { batch1_happy_path :=
          { name := "UI Happy Path (MainFlow)",
            count := [({ description := pystr "d", steps := pystr "s",
                         expected_result := pystr "e",
                         priority := pystr "High" } : TCRecord)].length,
            percentage := 100 }
        batch2_validation := { name := "UI Validation", count := 0, percentage := 0 }
        batch3_edge_cases :=
          { name := "UI Boundary (Edge Cases)", count := 0, percentage := 0 } } ∧
    (generate_test_cases jsonLoadsTable oracleB2Fails (pystr "B") 90 true).2 =
      [_create_prompt_ui_happy_path (pystr "B") 30,
       _create_prompt_ui_validation (pystr "B") 30] :=
  C1_batch2_failure_degrades jsonLoadsTable oracleB2Fails (pystr "B") 90 (by decide)
    (pystr "[x]")
    [{ description := pystr "d", steps := pystr "s", expected_result := pystr "e",
       priority := pystr "High" }]
    rfl (by decide) (.inl ⟨"boom", rfl⟩)

/-- C2: in 3-batch generation a batch-1 failure (model-call error or
unparseable/empty result) yields overall failure — success false, empty
list, a present error message, no breakdown — and batch 1 is the only
batch whose failure is fatal: whenever batch 1 succeeds, the run is an
overall success. -/

theorem C2_batch1_failure_fatal (jsonLoads : PyStr → Except String JValue)
    (oracle : Nat → Except String PyStr) (brd : PyStr) (target_count : Nat)
    (htc : 70 ≤ target_count) :
    (((∃ e, oracle 0 = .error e) ∨
        (∃ text1 e1, oracle 0 = .ok text1 ∧
          _parse_test_cases jsonLoads text1 = .error e1)) →
      (generate_test_cases jsonLoads oracle brd target_count true).1.success = false ∧
      (generate_test_cases jsonLoads oracle brd target_count true).1.test_cases = [] ∧
      (∃ e, (generate_test_cases jsonLoads oracle brd target_count true).1.error =
        some e) ∧
      (generate_test_cases jsonLoads oracle brd target_count true).1.breakdown =
        none) ∧
    (∀ text1 recs1, oracle 0 = .ok text1 →
      _parse_test_cases jsonLoads text1 = .ok recs1 →
      (generate_test_cases jsonLoads oracle brd target_count true).1.success = true) := by
  constructor
  · intro hfail
    rcases hfail with ⟨e, he⟩ | ⟨text1, e1, hok1, hpe1⟩
    · simp [generate_test_cases, _call_chatgpt, he, htc]
    · simp [generate_test_cases, _call_chatgpt, hok1, hpe1, htc]
  · intro text1 recs1 h0 hp1
    cases h2 : oracle 1 with
    | error e2 => simp [generate_test_cases, _call_chatgpt, h0, hp1, h2, htc]
    | ok text2 =>
      cases hp2 : _parse_test_cases jsonLoads text2 with
      | error e2 => simp [generate_test_cases, _call_chatgpt, h0, hp1, h2, hp2, htc]
      | ok recs2 =>
        cases h3 : oracle 2 with
        | error e3 =>
          simp [generate_test_cases, _call_chatgpt, h0, hp1, h2, hp2, h3, htc]
        | ok text3 =>
          cases hp3 : _parse_test_cases jsonLoads text3 with
          | error e3 =>
            simp [generate_test_cases, _call_chatgpt, h0, hp1, h2, hp2, h3, hp3, htc]
          | ok recs3 =>
            simp [generate_test_cases, _call_chatgpt, h0, hp1, h2, hp2, h3, hp3, htc]

/-- C2 witness: the C2 failure branch at a concrete oracle whose batch-1
call raises. -/

theorem C2_batch1_failure_fatal_witness :
    (generate_test_cases jsonLoadsTable oracleAllFail (pystr "B") 90 true).1.success =
      false ∧
    (generate_test_cases jsonLoadsTable oracleAllFail (pystr "B") 90 true).1.test_cases =
      [] ∧
    (∃ e, (generate_test_cases jsonLoadsTable oracleAllFail (pystr "B") 90
      true).1.error = some e) ∧
    (generate_test_cases jsonLoadsTable oracleAllFail (pystr "B") 90 true).1.breakdown =
      none :=
  (C2_batch1_failure_fatal jsonLoadsTable oracleAllFail (pystr "B") 90 (by decide)).1
    (.inl ⟨"boom", rfl⟩)

/-- C3: the 3-batch protocol runs exactly when `batch_mode` is enabled
and `target_count ≥ 70` — the submitted prompts are then an initial
segment (at least batch 1) of happy-path 30, validation 30, edge-cases
`target_count - 60` — and for every other combination a single
happy-path prompt sized to `target_count` is submitted instead. -/

theorem C3_batch_protocol (jsonLoads : PyStr → Except String JValue)
    (oracle : Nat → Except String PyStr) (brd : PyStr) (target_count : Nat)
    (batch_mode : Bool) :
    (batch_mode = true ∧ 70 ≤ target_count →
      ∃ k, 1 ≤ k ∧ k ≤ 3 ∧
        (generate_test_cases jsonLoads oracle brd target_count batch_mode).2 =
          List.take k
            [_create_prompt_ui_happy_path brd 30, _create_prompt_ui_validation brd 30,
             _create_prompt_ui_edge_cases brd (target_count - 60)]) ∧
    (¬ (batch_mode = true ∧ 70 ≤ target_count) →
      (generate_test_cases jsonLoads oracle brd target_count batch_mode).2 =
        [_create_prompt_ui_happy_path brd target_count]) := by
  constructor
  · rintro ⟨hbm, htc⟩
    subst hbm
    cases h1 : oracle 0 with
    | error e1 =>
      exact ⟨1, by omega, by omega,
        by simp [generate_test_cases, _call_chatgpt, h1, htc]⟩
    | ok text1 =>
      cases hp1 : _parse_test_cases jsonLoads text1 with
      | error e1 =>
        exact ⟨1, by omega, by omega,
          by simp [generate_test_cases, _call_chatgpt, h1, hp1, htc]⟩
      | ok recs1 =>
        cases h2 : oracle 1 with
        | error e2 =>
          exact ⟨2, by omega, by omega,
            by simp [generate_test_cases, _call_chatgpt, h1, hp1, h2, htc]⟩
        | ok text2 =>
          cases hp2 : _parse_test_cases jsonLoads text2 with
          | error e2 =>
            exact ⟨2, by omega, by omega,
              by simp [generate_test_cases, _call_chatgpt, h1, hp1, h2, hp2, htc]⟩
          | ok recs2 =>
            cases h3 : oracle 2 with
            | error e3 =>
              exact ⟨3, by omega, by omega,
                by simp [generate_test_cases, _call_chatgpt, h1, hp1, h2, hp2, h3,
                  htc]⟩
            | ok text3 =>
              cases hp3 : _parse_test_cases jsonLoads text3 with
              | error e3 =>
                exact ⟨3, by omega, by omega,
                  by simp [generate_test_cases, _call_chatgpt, h1, hp1, h2, hp2, h3,
                    hp3, htc]⟩
              | ok recs3 =>
                exact ⟨3, by omega, by omega,
                  by simp [generate_test_cases, _call_chatgpt, h1, hp1, h2, hp2, h3,
                    hp3, htc]⟩
  · intro hno
    cases h1 : oracle 0 with
    | error e1 => simp [generate_test_cases, _call_chatgpt, h1, hno]
    | ok text1 =>
      cases hp1 : _parse_test_cases jsonLoads text1 with
      | error e1 => simp [generate_test_cases, _call_chatgpt, h1, hp1, hno]
      | ok recs1 => simp [generate_test_cases, _call_chatgpt, h1, hp1, hno]

/-- C3 witness: with batch mode disabled the single happy-path prompt
sized to the target count is the only submitted prompt. -/

theorem C3_batch_protocol_witness :
    (generate_test_cases jsonLoadsTable oracleAllFail (pystr "B") 10 false).2 =
      [_create_prompt_ui_happy_path (pystr "B") 10] :=
  (C3_batch_protocol jsonLoadsTable oracleAllFail (pystr "B") 10 false).2 (by decide)

lemma pyReplace_nil (p rep : PyStr) : pyReplace p rep [] = [] := by
  unfold pyReplace
  rfl

lemma pyReplace_cons (p rep : PyStr) (c : Char) (t : PyStr) :
    pyReplace p rep (c :: t) =
      if listStartsWith (c :: t) p then rep ++ pyReplace p rep (t.drop (p.length - 1))
      else c :: pyReplace p rep t := by
  conv_lhs => rw [pyReplace]

lemma listStartsWith_cons_ne (c d : Char) (t q : PyStr) (h : c ≠ d) :
    listStartsWith (c :: t) (d :: q) = false := by
  simp [listStartsWith, List.take_succ_cons, h]

/-- Replacement of a `\x7b`-headed pattern passes over any text without
an opening brace. -/

lemma pyReplace_append_free (p rep s₂ : PyStr) :
    ∀ s₁ : PyStr, lbrace ∉ s₁ →
      pyReplace (lbrace :: p) rep (s₁ ++ s₂) = s₁ ++ pyReplace (lbrace :: p) rep s₂ := by
  intro s₁
  induction s₁ with
  | nil => intro _; rfl
  | cons c t ih =>
    intro hmem
    have hc : c ≠ lbrace := by
      intro hceq
      exact hmem (by simp [hceq])
    have ht : lbrace ∉ t := fun h => hmem (by simp [h])
    rw [List.cons_append, pyReplace_cons,
      if_neg (by rw [listStartsWith_cons_ne c lbrace _ _ hc]; simp), ih ht,
      List.cons_append]

/-- Key step of the mismatch case: a prefix of `name + "\x7d" + rest`
shaped `key + "\x7d"` forces `key = name`, when neither contains a
closing brace. -/

lemma take_key_eq (k : PyStr) : ∀ n t : PyStr, rbrace ∉ k → rbrace ∉ n →
    (n ++ rbrace :: t).take (k.length + 1) = k ++ [rbrace] → k = n := by
  induction k with
  | nil =>
    intro n t _ hn htake
    cases n with
    | nil => rfl
    | cons c n' =>
      exfalso
      simp only [List.length_nil, Nat.zero_add, List.cons_append,
        List.take_succ_cons, List.take_zero, List.nil_append,
        List.cons.injEq] at htake
      exact hn (by simp [htake.1])
  | cons a k' ih =>
    intro n t hk hn htake
    cases n with
    | nil =>
      exfalso
      simp only [List.nil_append, List.length_cons, List.take_succ_cons,
        List.cons_append, List.cons.injEq] at htake
      exact hk (by simp [htake.1])
    | cons c n' =>
      have hk' : rbrace ∉ k' := fun h => hk (by simp [h])
      have hn' : rbrace ∉ n' := fun h => hn (by simp [h])
      simp only [List.cons_append, List.length_cons, List.take_succ_cons,
        List.cons.injEq] at htake
      rw [htake.1, ih n' t hk' hn' htake.2]

lemma pystr_injective (k n : String) (h : pystr k = pystr n) : k = n := by
  cases k
  cases n
  simp only [pystr] at h
  rw [h]

/-- One `str.replace` pass over a rendered template substitutes exactly
the placeholders carrying the replaced key, and nothing else. -/

lemma pyReplace_render (k : String) (v : PyStr)
    (hk : lbrace ∉ pystr k ∧ rbrace ∉ pystr k) :
    ∀ segs : List UrlSeg, (∀ s ∈ segs, segOk s) →
      pyReplace (lbrace :: (pystr k ++ [rbrace])) v (renderSegs segs) =
        renderSegs (segs.map (substOneSeg k v)) := by
  intro segs
  induction segs with
  | nil => intro _; exact pyReplace_nil _ _
  | cons s rest ih =>
    intro hok
    have hrest : ∀ x ∈ rest, segOk x := fun x hx => hok x (by simp [hx])
    have hs : segOk s := hok s (by simp)
    cases s with
    | lit l =>
      show pyReplace (lbrace :: (pystr k ++ [rbrace])) v (l ++ renderSegs rest) = _
      rw [pyReplace_append_free _ _ _ l hs, ih hrest]
      rfl
    | ph n =>
      have hn : lbrace ∉ pystr n ∧ rbrace ∉ pystr n := hs
      by_cases hkn : n = k
      · subst hkn
        show pyReplace (lbrace :: (pystr n ++ [rbrace])) v
            (lbrace :: ((pystr n ++ [rbrace]) ++ renderSegs rest)) = _
        rw [pyReplace_cons]
        have hcond : listStartsWith
            (lbrace :: ((pystr n ++ [rbrace]) ++ renderSegs rest))
            (lbrace :: (pystr n ++ [rbrace])) = true := by
          unfold listStartsWith
          rw [List.length_cons, List.take_succ_cons, List.take_left]
          simp
        rw [if_pos hcond]
        have hdrop : ((pystr n ++ [rbrace]) ++ renderSegs rest).drop
            ((lbrace :: (pystr n ++ [rbrace])).length - 1) = renderSegs rest := by
          simp only [List.length_cons, Nat.add_sub_cancel]
          simp
        rw [hdrop, ih hrest]
        simp [substOneSeg, renderSegs]
      · show pyReplace (lbrace :: (pystr k ++ [rbrace])) v
            (lbrace :: ((pystr n ++ [rbrace]) ++ renderSegs rest)) = _
        rw [pyReplace_cons]
        rw [if_neg (by
          simp only [listStartsWith, List.length_cons, List.take_succ_cons,
            decide_eq_true_eq, List.cons.injEq, true_and]
          intro htake
          apply hkn
          apply pystr_injective
          exact (take_key_eq (pystr k) (pystr n) (renderSegs rest) hk.2 hn.2
            (by simpa [List.append_assoc] using htake)).symm)]
        have hfree : lbrace ∉ pystr n ++ [rbrace] := by
          intro hmem
          rcases List.mem_append.mp hmem with h | h
          · exact hn.1 h
          · simp at h
            exact absurd h (by decide)
        rw [pyReplace_append_free _ _ _ (pystr n ++ [rbrace]) hfree, ih hrest]
        simp [substOneSeg, renderSegs, hkn]

lemma substSeg_nil (s : UrlSeg) : substSeg [] s = s := by
  cases s <;> rfl

/-- The whole kwargs loop over a rendered template equals the
simultaneous per-segment substitution. -/

lemma substituteAll_render (kwargs : List (String × PyStr)) :
    ∀ segs : List UrlSeg, (∀ s ∈ segs, segOk s) → (∀ kv ∈ kwargs, kwOk kv) →
      substituteAll kwargs (renderSegs segs) =
        renderSegs (segs.map (substSeg kwargs)) := by
  induction kwargs with
  | nil =>
    intro segs hsegs _
    show renderSegs segs = _
    have hmap : segs.map (substSeg []) = segs := by
      rw [show segs.map (substSeg []) = segs.map id from
        List.map_congr_left fun s _ => substSeg_nil s, List.map_id]
    rw [hmap]
  | cons kv rest ih =>
    intro segs hsegs hkw
    have hkv : kwOk kv := hkw kv (by simp)
    have hrest : ∀ x ∈ rest, kwOk x := fun x hx => hkw x (by simp [hx])
    show substituteAll rest
      (pyReplace (lbrace :: (pystr kv.1 ++ [rbrace])) kv.2 (renderSegs segs)) = _
    rw [pyReplace_render kv.1 kv.2 ⟨hkv.1, hkv.2.1⟩ segs hsegs]
    have hsegs' : ∀ x ∈ segs.map (substOneSeg kv.1 kv.2), segOk x := by
      intro x hx
      rcases List.mem_map.mp hx with ⟨s, hsmem, rfl⟩
      cases s with
      | lit l => exact hsegs _ hsmem
      | ph n =>
        by_cases hnk : n = kv.1
        · subst hnk
          simp only [substOneSeg, if_pos rfl]
          exact hkv.2.2
        · simp only [substOneSeg, if_neg hnk]
          exact hsegs _ hsmem
    rw [ih (segs.map (substOneSeg kv.1 kv.2)) hsegs' hrest]
    congr 1
    rw [List.map_map]
    apply List.map_congr_left
    intro s hsmem
    cases s with
    | lit l => rfl
    | ph n =>
      by_cases hnk : n = kv.1
      · subst hnk
        simp [Function.comp, substOneSeg, substSeg, List.find?]
      · have hnk2 : ¬ (kv.1 = n) := fun h => hnk h.symm
        simp [Function.comp, substOneSeg, substSeg, List.find?, hnk, hnk2]

/-- C8: in URL lookup with template substitution, every placeholder whose
name is among the supplied pairs is replaced by its value, and every
placeholder with no matching key is left verbatim in the returned URL
(not an error, not removed): `urlGet` returns the base URL plus the
template with exactly the matched placeholders substituted (`substSeg`
keeps unmatched placeholders unchanged by definition). -/

theorem C8_url_template_subst (urls : List (String × List (String × PyStr)))
    (base : PyStr) (module action : String) (kwargs : List (String × PyStr))
    (m : List (String × PyStr)) (segs : List UrlSeg)
    (hm : (urls.find? fun x => x.1 = module).map Prod.snd = some m)
    (hmne : m ≠ [])
    (ha : (m.find? fun x => x.1 = action).map Prod.snd = some (renderSegs segs))
    (hne : renderSegs segs ≠ [])
    (hsegs : ∀ s ∈ segs, segOk s) (hkw : ∀ kv ∈ kwargs, kwOk kv) :
    urlGet urls base module action kwargs =
      some (base ++ renderSegs (segs.map (substSeg kwargs))) := by
  unfold urlGet
  rw [hm]
  simp only []
  rw [if_neg hmne, ha]
  simp only []
  rw [if_neg hne, substituteAll_render kwargs segs hsegs hkw]

/-- C8 witness: a concrete contract-edit template with two placeholders,
one supplied (`id`) and one not (`other`): `id` is replaced by `123` and
`\x7bother\x7d` is left verbatim. -/

theorem C8_url_template_subst_witness :
    urlGet
        [("contract",
          [("edit",
            renderSegs
              [UrlSeg.lit (pystr "/account/contract/edit/"), UrlSeg.ph "id",
               UrlSeg.lit (pystr "/x/"), UrlSeg.ph "other"])])]
        (pystr "https://agency-uat.affina.com.vn") "contract" "edit"
        [("id", pystr "123")] =
      some (pystr "https://agency-uat.affina.com.vn" ++
        renderSegs
          ([UrlSeg.lit (pystr "/account/contract/edit/"), UrlSeg.ph "id",
            UrlSeg.lit (pystr "/x/"), UrlSeg.ph "other"].map
            (substSeg [("id", pystr "123")]))) :=
  C8_url_template_subst
    [("contract",
      [("edit",
        renderSegs
          [UrlSeg.lit (pystr "/account/contract/edit/"), UrlSeg.ph "id",
           UrlSeg.lit (pystr "/x/"), UrlSeg.ph "other"])])]
    (pystr "https://agency-uat.affina.com.vn") "contract" "edit"
    [("id", pystr "123")]
    [("edit",
      renderSegs
        [UrlSeg.lit (pystr "/account/contract/edit/"), UrlSeg.ph "id",
         UrlSeg.lit (pystr "/x/"), UrlSeg.ph "other"])]
    [UrlSeg.lit (pystr "/account/contract/edit/"), UrlSeg.ph "id",
     UrlSeg.lit (pystr "/x/"), UrlSeg.ph "other"]
    rfl (by decide) rfl (by decide) (by decide) (by decide)

/-- C5 witness: on text matching no keyword group the classifier returns
the default `"contract"`, and the classifier agrees with the ordered
first-match scan there. -/
theorem C5_module_classifier_witness :
    _detect_module (pystr "zzz") (pystr "qqq") =
      detectModuleSpec (pystr "zzz") (pystr "qqq") ∧
    _detect_module (pystr "zzz") (pystr "qqq") = "contract" :=
  ⟨(C5_module_classifier (pystr "zzz") (pystr "qqq")).1,
   (C5_module_classifier (pystr "zzz") (pystr "qqq")).2 (by decide)⟩
